import Mathlib

/-!
Verification of the simple_zkp_integration proof service.

The repository wraps the gnark Groth16 backend behind two HTTP handlers:
`internal/circuit/addtion.go` defines an addition circuit (secret `A`, `B`,
public `Sum`, one constraint `A + B = Sum` over the BN254 scalar field) and
the `Setup` / `GenerateProof` / `VerifyProof` wrappers around the backend;
`internal/handlers/proof.go` holds the HTTP layer with the `sync.Once`
guarded one-time key setup.

The gnark / gnark-crypto backend is a third-party library, out of scope of
the repository; it is modelled here from the spec's Backend Adapter
contract (§6): `Setup`, `Prove`, `Verify` and proof (de)serialization, with
`Prove` failing exactly on an assignment that violates the compiled
constraints and `Verify` accepting exactly the proofs produced for the same
public witness and key material.
-/

namespace Zkp

/-- The BN254 scalar field modulus, the value of `ecc.BN254.ScalarField()`
that `addtion.go` passes to `frontend.Compile` and `frontend.NewWitness`. -/
def r : Nat := 21888242871839275222246405745257275088548364400416034343698204186575808495617

theorem r_pos : 0 < r := by decide

theorem two_pow_64_lt_r : 2 ^ 64 < r := by decide

/-- Embedding of a Go `int` into the BN254 scalar field, as gnark's witness
construction performs it: the signed value is reduced modulo `r`, so a
negative `x` maps to `r - |x|`. -/
def toF (x : Int) : Nat := (x % (r : Int)).toNat

theorem toF_lt (x : Int) : toF x < r := by
  have h := Int.emod_lt_of_pos x (b := (r : Int)) (by decide)
  have h0 := Int.emod_nonneg x (b := (r : Int)) (by decide)
  unfold toF
  omega

/-- The circuit's variable names: secret `A`, `B` and public `Sum`
(`AdditionCircuit` in `addtion.go`). -/
inductive Var | A | B | Sum
deriving DecidableEq, Repr

/-- Arithmetic expressions the frontend API builds while `Define` runs:
variables and `api.Add`. -/
inductive Expr
| v : Var → Expr
| add : Expr → Expr → Expr
deriving DecidableEq, Repr

/-- One `api.AssertIsEqual` constraint: an equality of two expressions. -/
structure Constraint where
  lhs : Expr
  rhs : Expr
deriving DecidableEq, Repr

/-- The constraints emitted by `AdditionCircuit.Define`:
`api.AssertIsEqual(api.Add(circuit.A, circuit.B), circuit.Sum)`,
a single constraint `A + B = Sum`. -/
def defineConstraints : List Constraint :=
  [⟨Expr.add (Expr.v Var.A) (Expr.v Var.B), Expr.v Var.Sum⟩]

/-- Modelled from the spec (§6, Backend Adapter): `frontend.Compile` turns
the relation definition into a constraint system; compilation of the same
circuit shape is deterministic (§4.1), so it is a pure function of the
constraints `Define` emits. -/
def compile : List Constraint := defineConstraints

/-- A witness: an assignment of field elements to the circuit variables. -/
def Witness : Type := Var → Nat

/-- Field evaluation of an expression under a witness (all arithmetic is
modulo the BN254 scalar field modulus `r`). -/
def evalExpr (w : Witness) : Expr → Nat
| .v x => w x % r
| .add e₁ e₂ => (evalExpr w e₁ + evalExpr w e₂) % r

/-- A witness satisfies a constraint system when every emitted equality
holds in the field. -/
def satisfies (ccs : List Constraint) (w : Witness) : Bool :=
  ccs.all (fun c => evalExpr w c.lhs == evalExpr w c.rhs)

/-- The full witness `frontend.NewWitness` builds in `GenerateProof`:
`A = a, B = b, Sum = sum`, each Go `int` embedded into the field. -/
def fullWitness (a b sum : Int) : Witness :=
  fun x => match x with
  | .A => toF a
  | .B => toF b
  | .Sum => toF sum

/-- The public witness `frontend.NewWitness(..., frontend.PublicOnly())`
builds in `VerifyProof`: only `Sum` is assigned; the secret fields of the
`AdditionCircuit` literal are Go zero values and are dropped from the
public witness. -/
def publicWitness (sum : Int) : Witness :=
  fun x => match x with
  | .A => 0
  | .B => 0
  | .Sum => toF sum

/-- A Groth16 proving key, bound to the constraint system it was set up
for. Modelled from the spec (§6): opaque key material produced by
`groth16.Setup`. -/
structure ProvingKey where
  ccs : List Constraint
deriving DecidableEq, Repr

/-- A Groth16 verifying key, bound to the constraint system it was set up
for. Modelled from the spec (§6). -/
structure VerifyingKey where
  ccs : List Constraint
deriving DecidableEq, Repr

/-- Modelled from the spec (§6, §3): an idealized Groth16 proof — an opaque
artifact bound to the constraint system and the public witness it was
produced against; by construction of the backend it carries no secret
information (the secret assignments `A`, `B` do not occur in it). -/
structure Proof where
  ccs : List Constraint
  publicSum : Nat
deriving DecidableEq, Repr

/-- Modelled from the spec (§6): `groth16.Setup(ccs)` generates the key
pair for a compiled constraint system. -/
def groth16Setup (ccs : List Constraint) : ProvingKey × VerifyingKey :=
  (⟨ccs⟩, ⟨ccs⟩)

/-- Modelled from the spec (§6, §4.3): `groth16.Prove` succeeds exactly
when the witness satisfies the constraint system the proving key was set
up for, and the produced proof binds the public part of the witness. -/
def groth16Prove (ccs : List Constraint) (pk : ProvingKey) (w : Witness) :
    Except String Proof :=
  if pk.ccs = ccs ∧ satisfies ccs w = true then
    .ok ⟨ccs, w Var.Sum % r⟩
  else
    .error "constraint system solver failed"

/-- Modelled from the spec (§6, §4.4): `groth16.Verify` reports an error
unless the proof was produced for the same constraint system as the
verifying key and for the same public witness (gnark surfaces an invalid
proof as a non-nil error). -/
def groth16Verify (p : Proof) (vk : VerifyingKey) (pubW : Witness) :
    Except String Unit :=
  if p.ccs = vk.ccs ∧ p.publicSum = pubW Var.Sum % r then
    .ok ()
  else
    .error "invalid proof"

/-- Modelled from the spec (§6, §4.3 step 4): `proof.WriteTo` serializes a
proof to a canonical byte sequence. The public binding is written as
little-endian base-256 digits followed by a non-zero terminator byte. -/
def serializeProof (p : Proof) : List Nat :=
  Nat.digits 256 p.publicSum ++ [1]

/-- Modelled from the spec (§6, §4.4 step 2): `proof.ReadFrom` parses the
canonical byte format and fails on any byte string that is not a
well-formed serialized proof (the `MalformedProof` case). -/
def deserializeProof (bs : List Nat) : Except String Proof :=
  if bs.getLast? = some 1 ∧ bs.dropLast.all (fun d => d < 256) = true ∧
      bs.dropLast.getLast? ≠ some 0 ∧ Nat.ofDigits 256 bs.dropLast < r then
    .ok ⟨compile, Nat.ofDigits 256 bs.dropLast⟩
  else
    .error "invalid point: subgroup check failed"

/-- `Setup` in `addtion.go`: compile the circuit, then run the backend's
trusted setup on the constraint system. -/
def Setup : Except String (ProvingKey × VerifyingKey) :=
  let ccs := compile
  .ok (groth16Setup ccs)

/-- `GenerateProof` in `addtion.go`: build the full witness from the Go
ints `a`, `b`, `sum`, recompile the circuit, and call `groth16.Prove`. -/
def GenerateProof (pk : ProvingKey) (a b sum : Int) : Except String Proof := do
  let w := fullWitness a b sum
  let ccs := compile
  groth16Prove ccs pk w

/-- `VerifyProof` in `addtion.go`: build the public witness with only
`Sum = sum` and call `groth16.Verify`; the backend's error is returned
as-is (`nil` means the proof verified). -/
def VerifyProof (vk : VerifyingKey) (p : Proof) (sum : Int) : Except String Unit :=
  let pubW := publicWitness sum
  groth16Verify p vk pubW

/-- Serialization round-trip: bytes written by `serializeProof` always
deserialize back to the same proof, provided the proof is one the backend
produced (its constraint system is the compiled circuit and its public
binding is a field element). -/
theorem deserialize_serialize (p : Proof) (hccs : p.ccs = compile)
    (hlt : p.publicSum < r) : deserializeProof (serializeProof p) = .ok p := by
  unfold serializeProof deserializeProof
  have hdrop : (Nat.digits 256 p.publicSum ++ [1]).dropLast = Nat.digits 256 p.publicSum := by
    simp [List.dropLast_concat]
  have hlast : (Nat.digits 256 p.publicSum ++ [1]).getLast? = some 1 := by
    simp [List.getLast?_concat]
  have hall : (Nat.digits 256 p.publicSum).all (fun d => d < 256) = true := by
    rw [List.all_eq_true]
    intro d hd
    simpa using Nat.digits_lt_base (by norm_num) hd
  have hnz : (Nat.digits 256 p.publicSum).getLast? ≠ some 0 := by
    intro hcontra
    have hne : Nat.digits 256 p.publicSum ≠ [] := by
      intro hnil
      rw [hnil] at hcontra
      simp at hcontra
    have hm : p.publicSum ≠ 0 := Nat.digits_ne_nil_iff_ne_zero.mp hne
    have := Nat.getLast_digit_ne_zero 256 hm
    rw [List.getLast?_eq_getLast _ hne] at hcontra
    simp at hcontra
    exact this hcontra
  have hof : Nat.ofDigits 256 (Nat.digits 256 p.publicSum) = p.publicSum :=
    Nat.ofDigits_digits 256 p.publicSum
  rw [hdrop] at *
  rw [if_pos]
  · cases p with
    | mk c s =>
      simp only at hccs hof ⊢
      rw [hof, hccs]
  · refine ⟨hlast, hall, hnz, ?_⟩
    rw [hof]
    exact hlt

theorem toF_mod (x : Int) : toF x % r = toF x := Nat.mod_eq_of_lt (toF_lt x)

/-- The compiled constraint system is satisfied by the full witness exactly
when `A + B = Sum` holds in the scalar field. -/
theorem satisfies_fullWitness_iff (a b s : Int) :
    satisfies compile (fullWitness a b s) = true ↔ (toF a + toF b) % r = toF s := by
  simp [satisfies, compile, defineConstraints, evalExpr, fullWitness, toF_mod]

/-- The Go `int` type is 64-bit on the targeted platforms; request values
decoded by `encoding/json` into `int` always lie in this range. -/
def int64Range (x : Int) : Prop := -(2 ^ 63) ≤ x ∧ x < 2 ^ 63

instance (x : Int) : Decidable (int64Range x) := by
  unfold int64Range
  infer_instance

/-- For `int64`-range inputs the field constraint `A + B = Sum` over BN254
coincides with integer addition: the difference `a + b - s` is far below
the 254-bit modulus, so congruence modulo `r` forces equality. -/
theorem field_rel_iff_int (a b s : Int) (ha : int64Range a) (hb : int64Range b)
    (hs : int64Range s) : (toF a + toF b) % r = toF s ↔ a + b = s := by
  unfold int64Range at ha hb hs
  unfold toF r
  omega

/-- `toF` is injective on the `int64` range: two distinct 64-bit values
stay distinct in the 254-bit field. -/
theorem toF_inj_int64 (x y : Int) (hx : int64Range x) (hy : int64Range y)
    (hxy : x ≠ y) : toF x ≠ toF y := by
  unfold int64Range at hx hy
  unfold toF r
  omega

/-- `GenerateProof` on a proving key for the compiled circuit succeeds on a
satisfying assignment and returns the proof bound to the public sum. -/
theorem GenerateProof_ok (pk : ProvingKey) (hpk : pk.ccs = compile) (a b s : Int)
    (hsat : satisfies compile (fullWitness a b s) = true) :
    GenerateProof pk a b s = .ok ⟨compile, toF s⟩ := by
  unfold GenerateProof groth16Prove
  simp only [bind, Except.bind]
  rw [if_pos ⟨hpk, hsat⟩]
  simp [fullWitness, toF_mod]

/-- `GenerateProof` fails on an assignment violating the constraints. -/
theorem GenerateProof_err (pk : ProvingKey) (a b s : Int)
    (hsat : ¬ satisfies compile (fullWitness a b s) = true) :
    GenerateProof pk a b s = .error "constraint system solver failed" := by
  unfold GenerateProof groth16Prove
  simp only [bind, Except.bind]
  rw [if_neg]
  intro hcontra
  exact hsat hcontra.2

/-- `VerifyProof` accepts exactly the proofs bound to the verifying key's
constraint system and to the queried public sum. -/
theorem VerifyProof_ok_iff (vk : VerifyingKey) (p : Proof) (s : Int) :
    VerifyProof vk p s = .ok () ↔ p.ccs = vk.ccs ∧ p.publicSum = toF s := by
  unfold VerifyProof groth16Verify
  constructor
  · intro h
    by_cases hc : p.ccs = vk.ccs ∧ p.publicSum = publicWitness s Var.Sum % r
    · refine ⟨hc.1, ?_⟩
      have := hc.2
      simpa [publicWitness, toF_mod] using this
    · rw [if_neg hc] at h
      exact absurd h (by simp)
  · intro ⟨h1, h2⟩
    rw [if_pos]
    exact ⟨h1, by simpa [publicWitness, toF_mod] using h2⟩

/-- `VerifyProof` returns an error (gnark: a non-nil verification error)
exactly when the proof is not bound to this key and sum. -/
theorem VerifyProof_err_iff (vk : VerifyingKey) (p : Proof) (s : Int) :
    (∃ e, VerifyProof vk p s = .error e) ↔ ¬ (p.ccs = vk.ccs ∧ p.publicSum = toF s) := by
  constructor
  · intro ⟨e, he⟩ hc
    rw [(VerifyProof_ok_iff vk p s).mpr hc] at he
    exact absurd he (by simp)
  · intro hc
    unfold VerifyProof groth16Verify
    rw [if_neg]
    · exact ⟨_, rfl⟩
    · intro hcontra
      exact hc ⟨hcontra.1, by simpa [publicWitness, toF_mod] using hcontra.2⟩

/-! ### The HTTP layer (`internal/handlers/proof.go`, `pkg/models/models.go`) -/

/-- A JSON value as far as the request bodies need: a number, a string,
or a string holding valid base64 (shown already decoded to the byte list
it denotes, as `encoding/json` decodes it into a Go `[]byte`). -/
inductive JValue
| jnum (n : Int)
| jstr (s : String)
| jbytes (bs : List Nat)
deriving DecidableEq, Repr

/-- A request body: `none` models a body that is not syntactically valid
JSON; `some fields` a JSON object given as an association list. -/
def JBody := Option (List (String × JValue))

/-- `models.ProofRequest`: fields `a`, `b`, `sum` of Go type `int`. -/
structure ProofRequest where
  A : Int
  B : Int
  Sum : Int
deriving DecidableEq, Repr

/-- `models.VerifyRequest`: fields `proof` (`[]byte`) and `sum` (`int`). -/
structure VerifyRequest where
  Proof : List Nat
  Sum : Int
deriving DecidableEq, Repr

/-- `encoding/json` decoding of an object field into a Go `int`: an absent
field is left at the zero value `0` (no error), an in-range number is
taken as-is, an out-of-range number or a value of another JSON type is an
`UnmarshalTypeError`. -/
def decodeIntField (o : List (String × JValue)) (name : String) : Except String Int :=
  match o.lookup name with
  | none => .ok 0
  | some (.jnum n) => if int64Range n then .ok n else .error "number overflows int"
  | some _ => .error "cannot unmarshal into field of type int"

/-- `encoding/json` decoding of an object field into a Go `[]byte`: absent
means the zero value `nil` (empty bytes), a valid-base64 string decodes to
its bytes, anything else is an error. -/
def decodeBytesField (o : List (String × JValue)) (name : String) : Except String (List Nat) :=
  match o.lookup name with
  | none => .ok []
  | some (.jbytes bs) => .ok bs
  | some _ => .error "cannot unmarshal into field of type byte slice"

/-- `json.NewDecoder(r.Body).Decode(&req)` for `models.ProofRequest`. -/
def decodeProofRequest : JBody → Except String ProofRequest
| none => .error "invalid JSON"
| some o => do
  let a ← decodeIntField o "a"
  let b ← decodeIntField o "b"
  let s ← decodeIntField o "sum"
  .ok ⟨a, b, s⟩

/-- `json.NewDecoder(r.Body).Decode(&req)` for `models.VerifyRequest`. -/
def decodeVerifyRequest : JBody → Except String VerifyRequest
| none => .error "invalid JSON"
| some o => do
  let p ← decodeBytesField o "proof"
  let s ← decodeIntField o "sum"
  .ok ⟨p, s⟩

/-- The process-wide mutable state of `proof.go`: the `sync.Once` flag
together with the globals `provingKey`, `verifyingKey`, `setupErr` it
guards. `none` models "setup not yet run"; `some outcome` the resolved
once-flag with the recorded keys or recorded error. -/
def ServerState := Option (Except String (ProvingKey × VerifyingKey))

/-- `initializeKeys`: `setupOnce.Do` runs `circuit.Setup` only when the
once-flag is unset, recording the outcome in the globals; otherwise it is
a no-op and the caller reads the recorded outcome. `res` is the outcome
the backend's setup would produce if run; the returned flag says whether
`Setup` was executed by this call. -/
def initializeKeys (res : Except String (ProvingKey × VerifyingKey)) :
    ServerState → Except String (ProvingKey × VerifyingKey) × Bool
| none => (res, true)
| some o => (o, false)

/-- A JSON response body: `respondWithError`'s error object, a
`models.ProofResponse`, or a `models.VerifyResponse`. -/
inductive RespBody
| errJson (error : String)
| proofJson (proof : List Nat) (sum : Int) (message : String)
| verifyJson (valid : Bool) (message : String)
deriving DecidableEq, Repr

/-- What one handler invocation produced: the HTTP status and JSON body
written, the process state afterwards, and which backend operations the
control flow reached (`setupRan`: `circuit.Setup` executed inside
`setupOnce.Do`; `proveCalled` / `verifyCalled`: the backend's
`groth16.Prove` / `groth16.Verify` was invoked). -/
structure HandlerResult where
  status : Nat
  body : RespBody
  newState : ServerState
  setupRan : Bool
  proveCalled : Bool
  verifyCalled : Bool

/-- `handlers.GenerateProof` (POST /api/proof/generate): initialize keys,
bail out 500 on recorded setup error, 400 on a body that fails JSON
decoding, then generate, serialize (`proof.WriteTo` into an in-memory
buffer, modelled total) and respond 200; a backend prove failure is 500. -/
def generateHandler (res : Except String (ProvingKey × VerifyingKey))
    (st : ServerState) (body : JBody) : HandlerResult :=
  let init := initializeKeys res st
  let outcome := init.1
  let ran := init.2
  let st' : ServerState := some outcome
  match outcome with
  | .error e => ⟨500, .errJson ("Setup failed: " ++ e), st', ran, false, false⟩
  | .ok (pk, _vk) =>
    match decodeProofRequest body with
    | .error _ => ⟨400, .errJson "Invalid request body", st', ran, false, false⟩
    | .ok req =>
      match GenerateProof pk req.A req.B req.Sum with
      | .error _ => ⟨500, .errJson "Failed to generate proof", st', ran, true, false⟩
      | .ok proof =>
        ⟨200, .proofJson (serializeProof proof) req.Sum
          "Proof generated successfully. This proves you know two numbers that add up to the sum, without revealing the numbers themselves!",
          st', ran, true, false⟩

/-- `handlers.VerifyProof` (POST /api/proof/verify): initialize keys, 500
on recorded setup error, 400 on a body that fails JSON decoding, 400 on
proof bytes that fail `ReadFrom`, then 200 carrying the verdict in the
body: any error from `circuit.VerifyProof` becomes `valid: false`, a nil
error `valid: true`. -/
def verifyHandler (res : Except String (ProvingKey × VerifyingKey))
    (st : ServerState) (body : JBody) : HandlerResult :=
  let init := initializeKeys res st
  let outcome := init.1
  let ran := init.2
  let st' : ServerState := some outcome
  match outcome with
  | .error e => ⟨500, .errJson ("Setup failed: " ++ e), st', ran, false, false⟩
  | .ok (_pk, vk) =>
    match decodeVerifyRequest body with
    | .error _ => ⟨400, .errJson "Invalid request body", st', ran, false, false⟩
    | .ok req =>
      match deserializeProof req.Proof with
      | .error _ => ⟨400, .errJson "Invalid proof format", st', ran, false, false⟩
      | .ok p =>
        match VerifyProof vk p req.Sum with
        | .error _ =>
          ⟨200, .verifyJson false
            "Proof is invalid. The prover does not know valid numbers that add up to the given sum.",
            st', ran, false, true⟩
        | .ok _ =>
          ⟨200, .verifyJson true
            "Proof is valid! The prover knows two numbers that add up to the sum (without revealing them).",
            st', ran, false, true⟩

/-! ### Traces of callers through the one-time setup

`sync.Once.Do` serializes its critical section and establishes a
happens-before edge from the single execution of the function to every
`Do` return, so N concurrent callers passing through `initializeKeys`
behave as some sequential order of the same calls; the model runs them in
sequence. -/

/-- Run `n` callers through `initializeKeys` in sequence from state `st`:
returns the final state, the outcome each caller observed (in order), and
how many times the backend's `Setup` was actually executed. -/
def runCallers (res : Except String (ProvingKey × VerifyingKey)) :
    Nat → ServerState →
    ServerState × List (Except String (ProvingKey × VerifyingKey)) × Nat
| 0, st => (st, [], 0)
| n + 1, st =>
  let init := initializeKeys res st
  let rest := runCallers res n (some init.1)
  (rest.1, init.1 :: rest.2.1, (if init.2 then 1 else 0) + rest.2.2)

/-- From an already-resolved state, further callers never rerun setup and
all observe the recorded outcome. -/
theorem runCallers_resolved (res o : Except String (ProvingKey × VerifyingKey))
    (n : Nat) : (runCallers res n (some o)).1 = some o ∧
      (runCallers res n (some o)).2.1 = List.replicate n o ∧
      (runCallers res n (some o)).2.2 = 0 := by
  induction n with
  | zero => simp [runCallers]
  | succ k ih => simpa [runCallers, initializeKeys, List.replicate] using ih

/-- One HTTP request to the proof API: which endpoint, with which body. -/
inductive ApiCall
| generate (body : JBody)
| verify (body : JBody)

/-- Dispatch one request to its handler. -/
def dispatch (res : Except String (ProvingKey × VerifyingKey))
    (st : ServerState) : ApiCall → HandlerResult
| .generate body => generateHandler res st body
| .verify body => verifyHandler res st body

/-- Run a sequence of requests against the process state, threading the
state and collecting every handler result. -/
def runCalls (res : Except String (ProvingKey × VerifyingKey)) :
    List ApiCall → ServerState → ServerState × List HandlerResult
| [], st => (st, [])
| c :: cs, st =>
  let h := dispatch res st c
  let rest := runCalls res cs h.newState
  (rest.1, h :: rest.2)

/-- Once the once-flag is resolved to outcome `o`, a single handler call of
either endpoint leaves the state at `o` and does not rerun setup. -/
theorem dispatch_resolved (res o : Except String (ProvingKey × VerifyingKey))
    (c : ApiCall) : (dispatch res (some o) c).newState = some o ∧
      (dispatch res (some o) c).setupRan = false := by
  cases c with
  | generate body =>
    simp only [dispatch, generateHandler, initializeKeys]
    cases o with
    | error e => exact ⟨rfl, rfl⟩
    | ok keys =>
      obtain ⟨pk, vk⟩ := keys
      cases hdec : decodeProofRequest body with
      | error e => exact ⟨rfl, rfl⟩
      | ok req =>
        cases hgen : GenerateProof pk req.A req.B req.Sum with
        | error e => simp [hdec, hgen]
        | ok p => simp [hdec, hgen]
  | verify body =>
    simp only [dispatch, verifyHandler, initializeKeys]
    cases o with
    | error e => exact ⟨rfl, rfl⟩
    | ok keys =>
      obtain ⟨pk, vk⟩ := keys
      cases hdec : decodeVerifyRequest body with
      | error e => exact ⟨rfl, rfl⟩
      | ok req =>
        cases hdes : deserializeProof req.Proof with
        | error e => simp [hdec, hdes]
        | ok p =>
          cases hver : VerifyProof vk p req.Sum with
          | error e => simp [hdec, hdes, hver]
          | ok u => simp [hdec, hdes, hver]

/-- With a recorded setup failure, a single handler call of either
endpoint responds 500 with the recorded error and reaches no backend
operation. -/
theorem dispatch_setup_failed (res : Except String (ProvingKey × VerifyingKey))
    (e : String) (c : ApiCall) :
    (dispatch res (some (.error e)) c).status = 500 ∧
      (dispatch res (some (.error e)) c).body = .errJson ("Setup failed: " ++ e) ∧
      (dispatch res (some (.error e)) c).setupRan = false ∧
      (dispatch res (some (.error e)) c).proveCalled = false ∧
      (dispatch res (some (.error e)) c).verifyCalled = false ∧
      (dispatch res (some (.error e)) c).newState = some (.error e) := by
  cases c <;> simp [dispatch, generateHandler, verifyHandler, initializeKeys]

/-- `Setup` always yields the key pair of the compiled circuit. -/
theorem Setup_inv {pk : ProvingKey} {vk : VerifyingKey}
    (h : Setup = .ok (pk, vk)) : pk = ⟨compile⟩ ∧ vk = ⟨compile⟩ := by
  unfold Setup groth16Setup at h
  injection h with h'
  rw [Prod.mk.injEq] at h'
  exact ⟨h'.1.symm, h'.2.symm⟩

/-- Evaluation of the verify handler on a well-formed request whose proof
bytes deserialize: the verdict in the 200 response mirrors the backend's
verification error. -/
theorem verifyHandler_eval (pk : ProvingKey) (vk : VerifyingKey) (bs : List Nat)
    (s : Int) (hs : int64Range s) (p : Proof) (hdes : deserializeProof bs = .ok p) :
    (verifyHandler (.ok (pk, vk)) (some (.ok (pk, vk)))
        (some [("proof", .jbytes bs), ("sum", .jnum s)])).status = 200 ∧
      ((VerifyProof vk p s = .ok () ∧
        (verifyHandler (.ok (pk, vk)) (some (.ok (pk, vk)))
          (some [("proof", .jbytes bs), ("sum", .jnum s)])).body =
          .verifyJson true
            "Proof is valid! The prover knows two numbers that add up to the sum (without revealing them).") ∨
       ((∃ e, VerifyProof vk p s = .error e) ∧
        (verifyHandler (.ok (pk, vk)) (some (.ok (pk, vk)))
          (some [("proof", .jbytes bs), ("sum", .jnum s)])).body =
          .verifyJson false
            "Proof is invalid. The prover does not know valid numbers that add up to the given sum.")) := by
  have hdec : decodeVerifyRequest (some [("proof", .jbytes bs), ("sum", .jnum s)]) =
      .ok ⟨bs, s⟩ := by
    simp [decodeVerifyRequest, decodeBytesField, decodeIntField, List.lookup, hs,
      bind, Except.bind]
  cases hver : VerifyProof vk p s with
  | error e =>
    refine ⟨?_, .inr ⟨⟨e, rfl⟩, ?_⟩⟩ <;>
      simp [verifyHandler, initializeKeys, hdec, hdes, hver]
  | ok u =>
    refine ⟨?_, .inl ⟨rfl, ?_⟩⟩ <;>
      simp [verifyHandler, initializeKeys, hdec, hdes, hver]

/-- C1: for every pair of `int64`-range integers `a`, `b` with
`sum = a + b`, after successful setup `GenerateProof` succeeds, the
serialized proof bytes deserialize back to the same proof, and the verify
endpoint answers 200 with `valid: true` for the same sum: the prove →
serialize → deserialize → verify round-trip yields `true` whenever
`A + B = Sum` is satisfied. -/
theorem C1_roundtrip_completeness (a b sum : Int) (ha : int64Range a)
    (hb : int64Range b) (hs : int64Range sum) (hrel : a + b = sum)
    (pk : ProvingKey) (vk : VerifyingKey) (hsetup : Setup = .ok (pk, vk)) :
    ∃ p, GenerateProof pk a b sum = .ok p ∧
      deserializeProof (serializeProof p) = .ok p ∧
      (verifyHandler (.ok (pk, vk)) (some (.ok (pk, vk)))
        (some [("proof", .jbytes (serializeProof p)), ("sum", .jnum sum)])).status = 200 ∧
      (verifyHandler (.ok (pk, vk)) (some (.ok (pk, vk)))
        (some [("proof", .jbytes (serializeProof p)), ("sum", .jnum sum)])).body =
        .verifyJson true
          "Proof is valid! The prover knows two numbers that add up to the sum (without revealing them)." := by
  obtain ⟨hpk, hvk⟩ := Setup_inv hsetup
  have hsat : satisfies compile (fullWitness a b sum) = true :=
    (satisfies_fullWitness_iff a b sum).mpr ((field_rel_iff_int a b sum ha hb hs).mpr hrel)
  have hgen : GenerateProof pk a b sum = .ok ⟨compile, toF sum⟩ :=
    GenerateProof_ok pk (by rw [hpk]) a b sum hsat
  have hrt : deserializeProof (serializeProof (⟨compile, toF sum⟩ : Proof)) =
      .ok ⟨compile, toF sum⟩ :=
    deserialize_serialize _ rfl (toF_lt sum)
  have hver : VerifyProof vk ⟨compile, toF sum⟩ sum = .ok () :=
    (VerifyProof_ok_iff vk _ sum).mpr ⟨by rw [hvk], rfl⟩
  obtain ⟨h200, hbody⟩ := verifyHandler_eval pk vk (serializeProof ⟨compile, toF sum⟩)
    sum hs ⟨compile, toF sum⟩ hrt
  refine ⟨⟨compile, toF sum⟩, hgen, hrt, h200, ?_⟩
  rcases hbody with ⟨_, hb'⟩ | ⟨⟨e, he⟩, _⟩
  · exact hb'
  · rw [hver] at he
    exact absurd he (by simp)

/-- C1 witness: the round-trip at the spec's example `(5, 3, 8)`. -/
theorem C1_roundtrip_completeness_witness :
    ∃ p, GenerateProof ⟨compile⟩ 5 3 8 = .ok p ∧
      deserializeProof (serializeProof p) = .ok p ∧
      (verifyHandler (.ok (⟨compile⟩, ⟨compile⟩)) (some (.ok (⟨compile⟩, ⟨compile⟩)))
        (some [("proof", .jbytes (serializeProof p)), ("sum", .jnum 8)])).status = 200 ∧
      (verifyHandler (.ok (⟨compile⟩, ⟨compile⟩)) (some (.ok (⟨compile⟩, ⟨compile⟩)))
        (some [("proof", .jbytes (serializeProof p)), ("sum", .jnum 8)])).body =
        .verifyJson true
          "Proof is valid! The prover knows two numbers that add up to the sum (without revealing them)." :=
  C1_roundtrip_completeness 5 3 8 (by decide) (by decide) (by decide) (by decide)
    ⟨compile⟩ ⟨compile⟩ rfl

/-- C2: for `int64`-range inputs with `a + b ≠ sum`, the backend's `Prove`
fails, the generate endpoint responds 500 ("Failed to generate proof",
the `ProveFailed` case), and the service layer performed no early check —
the backend's `Prove` was still invoked on the violating assignment. -/
theorem C2_soundness_no_early_check (a b sum : Int) (ha : int64Range a)
    (hb : int64Range b) (hs : int64Range sum) (hne : a + b ≠ sum)
    (pk : ProvingKey) (vk : VerifyingKey) (_hsetup : Setup = .ok (pk, vk)) :
    GenerateProof pk a b sum = .error "constraint system solver failed" ∧
      (generateHandler (.ok (pk, vk)) (some (.ok (pk, vk)))
        (some [("a", .jnum a), ("b", .jnum b), ("sum", .jnum sum)])).status = 500 ∧
      (generateHandler (.ok (pk, vk)) (some (.ok (pk, vk)))
        (some [("a", .jnum a), ("b", .jnum b), ("sum", .jnum sum)])).body =
        .errJson "Failed to generate proof" ∧
      (generateHandler (.ok (pk, vk)) (some (.ok (pk, vk)))
        (some [("a", .jnum a), ("b", .jnum b), ("sum", .jnum sum)])).proveCalled = true := by
  have hsat : ¬ satisfies compile (fullWitness a b sum) = true := by
    intro hcontra
    exact hne ((field_rel_iff_int a b sum ha hb hs).mp
      ((satisfies_fullWitness_iff a b sum).mp hcontra))
  have hgen : GenerateProof pk a b sum = .error "constraint system solver failed" :=
    GenerateProof_err pk a b sum hsat
  have hdec : decodeProofRequest (some [("a", .jnum a), ("b", .jnum b), ("sum", .jnum sum)]) =
      .ok ⟨a, b, sum⟩ := by
    simp [decodeProofRequest, decodeIntField, List.lookup, ha, hb, hs, bind, Except.bind]
  refine ⟨hgen, ?_, ?_, ?_⟩ <;>
    simp [generateHandler, initializeKeys, hdec, hgen]

/-- C2 witness: the spec's example `GenerateProof(5, 3, 9)`. -/
theorem C2_soundness_no_early_check_witness :
    GenerateProof ⟨compile⟩ 5 3 9 = .error "constraint system solver failed" ∧
      (generateHandler (.ok (⟨compile⟩, ⟨compile⟩)) (some (.ok (⟨compile⟩, ⟨compile⟩)))
        (some [("a", .jnum 5), ("b", .jnum 3), ("sum", .jnum 9)])).status = 500 ∧
      (generateHandler (.ok (⟨compile⟩, ⟨compile⟩)) (some (.ok (⟨compile⟩, ⟨compile⟩)))
        (some [("a", .jnum 5), ("b", .jnum 3), ("sum", .jnum 9)])).body =
        .errJson "Failed to generate proof" ∧
      (generateHandler (.ok (⟨compile⟩, ⟨compile⟩)) (some (.ok (⟨compile⟩, ⟨compile⟩)))
        (some [("a", .jnum 5), ("b", .jnum 3), ("sum", .jnum 9)])).proveCalled = true :=
  C2_soundness_no_early_check 5 3 9 (by decide) (by decide) (by decide) (by decide)
    ⟨compile⟩ ⟨compile⟩ rfl

/-- C7: a proof generated for a given public sum, verified against any
different `int64`-range public sum, yields HTTP 200 with `valid: false` —
not an error. -/
theorem C7_sum_binding (a b sum sum' : Int) (ha : int64Range a)
    (hb : int64Range b) (hs : int64Range sum) (hs' : int64Range sum')
    (hrel : a + b = sum) (hne : sum' ≠ sum)
    (pk : ProvingKey) (vk : VerifyingKey) (hsetup : Setup = .ok (pk, vk)) :
    ∃ p, GenerateProof pk a b sum = .ok p ∧
      (verifyHandler (.ok (pk, vk)) (some (.ok (pk, vk)))
        (some [("proof", .jbytes (serializeProof p)), ("sum", .jnum sum')])).status = 200 ∧
      (verifyHandler (.ok (pk, vk)) (some (.ok (pk, vk)))
        (some [("proof", .jbytes (serializeProof p)), ("sum", .jnum sum')])).body =
        .verifyJson false
          "Proof is invalid. The prover does not know valid numbers that add up to the given sum." := by
  obtain ⟨hpk, hvk⟩ := Setup_inv hsetup
  have hsat : satisfies compile (fullWitness a b sum) = true :=
    (satisfies_fullWitness_iff a b sum).mpr ((field_rel_iff_int a b sum ha hb hs).mpr hrel)
  have hgen : GenerateProof pk a b sum = .ok ⟨compile, toF sum⟩ :=
    GenerateProof_ok pk (by rw [hpk]) a b sum hsat
  have hrt : deserializeProof (serializeProof (⟨compile, toF sum⟩ : Proof)) =
      .ok ⟨compile, toF sum⟩ :=
    deserialize_serialize _ rfl (toF_lt sum)
  have hver : ¬ VerifyProof vk ⟨compile, toF sum⟩ sum' = .ok () := by
    intro hcontra
    have h := ((VerifyProof_ok_iff vk _ sum').mp hcontra).2
    exact toF_inj_int64 sum sum' hs hs' (fun hcontra' => hne (hcontra'.symm)) h
  obtain ⟨h200, hbody⟩ := verifyHandler_eval pk vk (serializeProof ⟨compile, toF sum⟩)
    sum' hs' ⟨compile, toF sum⟩ hrt
  refine ⟨⟨compile, toF sum⟩, hgen, h200, ?_⟩
  rcases hbody with ⟨hok, _⟩ | ⟨_, hb'⟩
  · exact absurd hok hver
  · exact hb'

/-- C7 witness: the spec's example — proof from `(5, 3, 8)` verified with
`sum = 9`. -/
theorem C7_sum_binding_witness :
    ∃ p, GenerateProof ⟨compile⟩ 5 3 8 = .ok p ∧
      (verifyHandler (.ok (⟨compile⟩, ⟨compile⟩)) (some (.ok (⟨compile⟩, ⟨compile⟩)))
        (some [("proof", .jbytes (serializeProof p)), ("sum", .jnum 9)])).status = 200 ∧
      (verifyHandler (.ok (⟨compile⟩, ⟨compile⟩)) (some (.ok (⟨compile⟩, ⟨compile⟩)))
        (some [("proof", .jbytes (serializeProof p)), ("sum", .jnum 9)])).body =
        .verifyJson false
          "Proof is invalid. The prover does not know valid numbers that add up to the given sum." :=
  C7_sum_binding 5 3 8 9 (by decide) (by decide) (by decide) (by decide) (by decide)
    (by decide) ⟨compile⟩ ⟨compile⟩ rfl

/-- C3: when `n ≥ 1` callers pass through the key-setup entry point (the
`sync.Once`-guarded `initializeKeys`, modelled as the serialized order the
once-primitive imposes), the backend `Setup` executes exactly once, and
every caller observes the same recorded outcome — the same key pair or
the same failure. -/
theorem C3_setup_exactly_once (res : Except String (ProvingKey × VerifyingKey))
    (n : Nat) (hn : 1 ≤ n) :
    (runCallers res n none).2.2 = 1 ∧
      (runCallers res n none).1 = some res ∧
      ∀ o ∈ (runCallers res n none).2.1, o = res := by
  obtain ⟨k, rfl⟩ : ∃ k, n = k + 1 := ⟨n - 1, by omega⟩
  obtain ⟨hst, hobs, hcount⟩ := runCallers_resolved res res k
  refine ⟨?_, ?_, ?_⟩
  · simp [runCallers, initializeKeys, hcount]
  · simp [runCallers, initializeKeys, hst]
  · intro o ho
    simp only [runCallers, initializeKeys] at ho
    rw [hobs] at ho
    rcases List.mem_cons.mp ho with h | h
    · exact h
    · exact List.eq_of_mem_replicate h

/-- C3 witness: three callers from a fresh process state. -/
theorem C3_setup_exactly_once_witness :
    (runCallers Setup 3 none).2.2 = 1 ∧
      (runCallers Setup 3 none).1 = some Setup ∧
      ∀ o ∈ (runCallers Setup 3 none).2.1, o = Setup :=
  C3_setup_exactly_once Setup 3 (by decide)

/-- Once the once-flag is resolved to outcome `o`, any sequence of handler
calls never reruns setup and leaves the recorded outcome untouched. -/
theorem runCalls_resolved (res o : Except String (ProvingKey × VerifyingKey))
    (calls : List ApiCall) :
    (∀ h ∈ (runCalls res calls (some o)).2, h.setupRan = false ∧ h.newState = some o) ∧
      (runCalls res calls (some o)).1 = some o := by
  induction calls with
  | nil =>
    refine ⟨?_, rfl⟩
    intro h hmem
    simp only [runCalls] at hmem
    cases hmem
  | cons c cs ih =>
    obtain ⟨hstate, hran⟩ := dispatch_resolved res o c
    constructor
    · intro h hmem
      simp only [runCalls] at hmem
      rcases List.mem_cons.mp hmem with hh | hh
      · subst hh
        exact ⟨hran, hstate⟩
      · rw [hstate] at hh
        exact ih.1 h hh
    · simp only [runCalls]
      rw [hstate]
      exact ih.2

/-- C5: setup failure is sticky — once the one-time setup has recorded a
failure, every subsequent generate or verify call answers 500 with the
same recorded failure, `Setup` is never re-attempted, and the recorded
state never changes; once setup has recorded success, the key material is
never mutated by any sequence of subsequent calls. -/
theorem C5_sticky_setup_outcome (res : Except String (ProvingKey × VerifyingKey))
    (e : String) (keys : ProvingKey × VerifyingKey) (calls : List ApiCall) :
    (∀ h ∈ (runCalls res calls (some (.error e))).2,
        h.status = 500 ∧ h.body = .errJson ("Setup failed: " ++ e) ∧
        h.setupRan = false ∧ h.newState = some (.error e)) ∧
      (runCalls res calls (some (.error e))).1 = some (.error e) ∧
      (∀ h ∈ (runCalls res calls (some (.ok keys))).2,
        h.setupRan = false ∧ h.newState = some (.ok keys)) ∧
      (runCalls res calls (some (.ok keys))).1 = some (.ok keys) := by
  refine ⟨?_, (runCalls_resolved res (.error e) calls).2,
    (runCalls_resolved res (.ok keys) calls).1,
    (runCalls_resolved res (.ok keys) calls).2⟩
  induction calls with
  | nil => intro h hmem; cases hmem
  | cons c cs ih =>
    intro h hmem
    obtain ⟨h500, hbody, hran, _, _, hstate⟩ := dispatch_setup_failed res e c
    simp only [runCalls] at hmem
    rcases List.mem_cons.mp hmem with hh | hh
    · subst hh
      exact ⟨h500, hbody, hran, hstate⟩
    · rw [hstate] at hh
      exact ih h hh

/-- C5 witness: a generate and a verify call after a recorded setup
failure, and after a recorded success. -/
theorem C5_sticky_setup_outcome_witness :
    (∀ h ∈ (runCalls Setup [ApiCall.generate none, ApiCall.verify none]
        (some (.error "boom"))).2,
        h.status = 500 ∧ h.body = .errJson ("Setup failed: " ++ "boom") ∧
        h.setupRan = false ∧ h.newState = some (.error "boom")) ∧
      (runCalls Setup [ApiCall.generate none, ApiCall.verify none]
        (some (.error "boom"))).1 = some (.error "boom") ∧
      (∀ h ∈ (runCalls Setup [ApiCall.generate none, ApiCall.verify none]
        (some (.ok (groth16Setup compile)))).2,
        h.setupRan = false ∧ h.newState = some (.ok (groth16Setup compile))) ∧
      (runCalls Setup [ApiCall.generate none, ApiCall.verify none]
        (some (.ok (groth16Setup compile)))).1 = some (.ok (groth16Setup compile)) :=
  C5_sticky_setup_outcome Setup "boom" (groth16Setup compile)
    [ApiCall.generate none, ApiCall.verify none]

/-- C4: the verify endpoint answers 500 exactly when setup failed; on a
well-formed request it answers 400 exactly when the submitted proof bytes
do not deserialize (and then with the "Invalid proof format" error body,
never with `valid: false`), and 200 whenever they do deserialize — with
the verdict, true or false, carried in the body. -/
theorem C4_verify_status_contract (res : Except String (ProvingKey × VerifyingKey))
    (body : JBody) :
    ((verifyHandler res (some res) body).status = 500 ↔ ∃ e, res = .error e) ∧
      (∀ pk vk req, res = .ok (pk, vk) → decodeVerifyRequest body = .ok req →
        (((verifyHandler res (some res) body).status = 400 ↔
            ∃ e, deserializeProof req.Proof = .error e) ∧
          (∀ e, deserializeProof req.Proof = .error e →
            (verifyHandler res (some res) body).body = .errJson "Invalid proof format") ∧
          (∀ p, deserializeProof req.Proof = .ok p →
            (verifyHandler res (some res) body).status = 200 ∧
            ((verifyHandler res (some res) body).body = .verifyJson true
                "Proof is valid! The prover knows two numbers that add up to the sum (without revealing them)." ∨
             (verifyHandler res (some res) body).body = .verifyJson false
                "Proof is invalid. The prover does not know valid numbers that add up to the given sum.")))) := by
  cases res with
  | error e =>
    constructor
    · simp [verifyHandler, initializeKeys]
    · intro pk vk req hres
      exact absurd hres (by simp)
  | ok keys =>
    obtain ⟨pk, vk⟩ := keys
    have hno500 : ∀ st, (verifyHandler (.ok (pk, vk)) (some (.ok (pk, vk))) body).status = st →
        st ≠ 500 := by
      intro st hst
      cases hdec : decodeVerifyRequest body with
      | error e1 =>
        simp only [verifyHandler, initializeKeys, hdec] at hst
        omega
      | ok req =>
        cases hdes : deserializeProof req.Proof with
        | error e2 =>
          simp only [verifyHandler, initializeKeys, hdec, hdes] at hst
          omega
        | ok p =>
          cases hver : VerifyProof vk p req.Sum with
          | error e3 =>
            simp only [verifyHandler, initializeKeys, hdec, hdes, hver] at hst
            omega
          | ok u =>
            simp only [verifyHandler, initializeKeys, hdec, hdes, hver] at hst
            omega
    constructor
    · constructor
      · intro h500
        exact absurd rfl (hno500 _ h500)
      · intro ⟨e', he'⟩
        exact absurd he' (by simp)
    · intro pk' vk' req hres hdec
      injection hres with h'
      rw [Prod.mk.injEq] at h'
      obtain ⟨hpk', hvk'⟩ := h'
      subst hpk'
      subst hvk'
      refine ⟨?_, ?_, ?_⟩
      · cases hdes : deserializeProof req.Proof with
        | error e2 =>
          constructor
          · intro _
            exact ⟨e2, rfl⟩
          · intro _
            simp [verifyHandler, initializeKeys, hdec, hdes]
        | ok p =>
          constructor
          · intro h400
            cases hver2 : VerifyProof vk p req.Sum with
            | error e3 =>
              simp only [verifyHandler, initializeKeys, hdec, hdes, hver2] at h400
              omega
            | ok u =>
              simp only [verifyHandler, initializeKeys, hdec, hdes, hver2] at h400
              omega
          · intro hex
            obtain ⟨e', he'⟩ := hex
            exact absurd he' (by simp)
      · intro e2 hdes
        simp [verifyHandler, initializeKeys, hdec, hdes]
      · intro p hdes
        cases hver : VerifyProof vk p req.Sum with
        | error e3 =>
          refine ⟨?_, .inr ?_⟩ <;> simp [verifyHandler, initializeKeys, hdec, hdes, hver]
        | ok u =>
          refine ⟨?_, .inl ?_⟩ <;> simp [verifyHandler, initializeKeys, hdec, hdes, hver]

/-- C4 witness: malformed proof bytes `[0]` with `sum = 8` yield 400 with
the "Invalid proof format" error body. -/
theorem C4_verify_status_contract_witness :
    (verifyHandler (.ok (⟨compile⟩, ⟨compile⟩)) (some (.ok (⟨compile⟩, ⟨compile⟩)))
        (some [("proof", .jbytes [0]), ("sum", .jnum 8)])).status = 400 ∧
      (verifyHandler (.ok (⟨compile⟩, ⟨compile⟩)) (some (.ok (⟨compile⟩, ⟨compile⟩)))
        (some [("proof", .jbytes [0]), ("sum", .jnum 8)])).body =
        .errJson "Invalid proof format" := by
  have h := C4_verify_status_contract (.ok (⟨compile⟩, ⟨compile⟩))
    (some [("proof", .jbytes [0]), ("sum", .jnum 8)])
  have hdec : decodeVerifyRequest (some [("proof", .jbytes [0]), ("sum", .jnum 8)]) =
      .ok ⟨[0], 8⟩ := by
    simp [decodeVerifyRequest, decodeBytesField, decodeIntField, List.lookup,
      bind, Except.bind, int64Range]
  have hdes : deserializeProof ([0] : List Nat) =
      .error "invalid point: subgroup check failed" := by
    rw [deserializeProof, if_neg]
    intro hc
    simpa using hc.1
  obtain ⟨h400, hbody, _⟩ := h.2 ⟨compile⟩ ⟨compile⟩ ⟨[0], 8⟩ rfl hdec
  exact ⟨h400.mpr ⟨_, hdes⟩, hbody _ hdes⟩

/-- C6: the constraint system `GenerateProof` compiles per call is the
same (deterministically compiled) system that `Setup` compiled and bound
the keys to, so proofs produced with the per-call compilation verify
against the keys generated at setup. -/
theorem C6_one_relation_setup_prove_compatible (pk : ProvingKey) (vk : VerifyingKey)
    (hsetup : Setup = .ok (pk, vk)) :
    pk.ccs = compile ∧ vk.ccs = compile ∧
      (∀ a b s : Int, GenerateProof pk a b s = groth16Prove compile pk (fullWitness a b s)) ∧
      (∀ a b s : Int, satisfies compile (fullWitness a b s) = true →
        ∃ p, GenerateProof pk a b s = .ok p ∧ VerifyProof vk p s = .ok ()) := by
  obtain ⟨hpk, hvk⟩ := Setup_inv hsetup
  refine ⟨by rw [hpk], by rw [hvk], fun a b s => rfl, fun a b s hsat => ?_⟩
  refine ⟨⟨compile, toF s⟩, GenerateProof_ok pk (by rw [hpk]) a b s hsat, ?_⟩
  exact (VerifyProof_ok_iff vk _ s).mpr ⟨by rw [hvk], rfl⟩

/-- C6 witness: the setup keys prove and verify `5 + 3 = 8` through the
per-call compilation. -/
theorem C6_one_relation_setup_prove_compatible_witness :
    (⟨compile⟩ : ProvingKey).ccs = compile ∧
      ∃ p, GenerateProof ⟨compile⟩ 5 3 8 = .ok p ∧ VerifyProof ⟨compile⟩ p 8 = .ok () := by
  have h := C6_one_relation_setup_prove_compatible ⟨compile⟩ ⟨compile⟩ rfl
  exact ⟨h.1, h.2.2.2 5 3 8 (by decide)⟩

/-- C9: verification uses only public data — the public witness assigns
`Sum` only (the secret slots are the zero value and are dropped), the
verification path is the pure function `groth16Verify` of the proof, the
verifying key and that public witness, and two satisfying secret pairs for
the same sum produce identical proof artifacts, so the secrets `a`, `b`
never influence verification. -/
theorem C9_verification_independent_of_secrets (pk : ProvingKey)
    (a b a' b' sum : Int)
    (h1 : satisfies compile (fullWitness a b sum) = true)
    (h2 : satisfies compile (fullWitness a' b' sum) = true) :
    GenerateProof pk a b sum = GenerateProof pk a' b' sum ∧
      publicWitness sum Var.A = 0 ∧ publicWitness sum Var.B = 0 ∧
      (∀ vk p, VerifyProof vk p sum = groth16Verify p vk (publicWitness sum)) := by
  refine ⟨?_, rfl, rfl, fun vk p => rfl⟩
  unfold GenerateProof groth16Prove
  simp only [bind, Except.bind]
  by_cases hpk : pk.ccs = compile
  · rw [if_pos ⟨hpk, h1⟩, if_pos ⟨hpk, h2⟩]
    simp [fullWitness]
  · rw [if_neg (fun hc => hpk hc.1), if_neg (fun hc => hpk hc.1)]

/-- C9 witness: the secret pairs `(5, 3)` and `(4, 4)` for `sum = 8`. -/
theorem C9_verification_independent_of_secrets_witness :
    GenerateProof ⟨compile⟩ 5 3 8 = GenerateProof ⟨compile⟩ 4 4 8 ∧
      publicWitness 8 Var.A = 0 ∧ publicWitness 8 Var.B = 0 := by
  have h := C9_verification_independent_of_secrets ⟨compile⟩ 5 3 4 4 8
    (by decide) (by decide)
  exact ⟨h.1, h.2.1, h.2.2.1⟩

/-- C10: the inputs are embedded into the BN254 scalar field before
proving, so the constraint is field equality, not Go machine-int
arithmetic: `GenerateProof(-1, 1, 0)` succeeds (negative values wrap to
`r - |x|`), while `a = MaxInt64, b = 1, sum = MinInt64` — which satisfies
`a + b == sum` as wrapped `int64` arithmetic — violates the field relation
and fails proving. -/
theorem C10_field_embedding_not_machine_ints :
    GenerateProof ⟨compile⟩ (-1) 1 0 = .ok ⟨compile, 0⟩ ∧
      GenerateProof ⟨compile⟩ (2 ^ 63 - 1) 1 (-(2 ^ 63)) =
        .error "constraint system solver failed" ∧
      ((2 ^ 63 - 1) + 1 + 2 ^ 63) % 2 ^ 64 - 2 ^ 63 = (-(2 ^ 63) : Int) := by
  refine ⟨rfl, rfl, by decide⟩

/-- C8 counterexample: a request body in which every required field is
absent — the empty JSON object — is NOT rejected with 400:
`encoding/json` leaves absent fields at their Go zero values, the decode
succeeds with `a = b = sum = 0`, and the generate endpoint proceeds to the
backend and responds 200. -/
theorem C8_counterexample_absent_fields :
    decodeProofRequest (some []) = .ok ⟨0, 0, 0⟩ ∧
      (generateHandler Setup (some Setup) (some [])).status = 200 ∧
      (generateHandler Setup (some Setup) (some [])).proveCalled = true :=
  ⟨rfl, rfl, rfl⟩

/-- C8 (amended): a request body that fails JSON decoding — not valid
JSON, or a present field of the wrong type, or an int field overflowing
`int64` — is rejected with HTTP 400 ("Invalid request body") by both
endpoints without invoking the backend's Prove or Verify; an absent field
is NOT rejected: it decodes to the Go zero value and the request
proceeds. -/
theorem C8_bad_body_rejected_without_backend (keys : ProvingKey × VerifyingKey)
    (genBody verBody : JBody)
    (h1 : ∃ e, decodeProofRequest genBody = .error e)
    (h2 : ∃ e, decodeVerifyRequest verBody = .error e) :
    (generateHandler (.ok keys) (some (.ok keys)) genBody).status = 400 ∧
      (generateHandler (.ok keys) (some (.ok keys)) genBody).body =
        .errJson "Invalid request body" ∧
      (generateHandler (.ok keys) (some (.ok keys)) genBody).proveCalled = false ∧
      (generateHandler (.ok keys) (some (.ok keys)) genBody).verifyCalled = false ∧
      (verifyHandler (.ok keys) (some (.ok keys)) verBody).status = 400 ∧
      (verifyHandler (.ok keys) (some (.ok keys)) verBody).body =
        .errJson "Invalid request body" ∧
      (verifyHandler (.ok keys) (some (.ok keys)) verBody).proveCalled = false ∧
      (verifyHandler (.ok keys) (some (.ok keys)) verBody).verifyCalled = false := by
  obtain ⟨e1, he1⟩ := h1
  obtain ⟨e2, he2⟩ := h2
  obtain ⟨pk, vk⟩ := keys
  refine ⟨?_, ?_, ?_, ?_, ?_, ?_, ?_, ?_⟩ <;>
    simp [generateHandler, verifyHandler, initializeKeys, he1, he2]

/-- C8 witness: an ill-typed `a` (a string) and an ill-typed `proof`
(a number). -/
theorem C8_bad_body_rejected_without_backend_witness :
    (generateHandler (.ok (⟨compile⟩, ⟨compile⟩)) (some (.ok (⟨compile⟩, ⟨compile⟩)))
        (some [("a", .jstr "x")])).status = 400 ∧
      (generateHandler (.ok (⟨compile⟩, ⟨compile⟩)) (some (.ok (⟨compile⟩, ⟨compile⟩)))
        (some [("a", .jstr "x")])).body = .errJson "Invalid request body" ∧
      (generateHandler (.ok (⟨compile⟩, ⟨compile⟩)) (some (.ok (⟨compile⟩, ⟨compile⟩)))
        (some [("a", .jstr "x")])).proveCalled = false ∧
      (generateHandler (.ok (⟨compile⟩, ⟨compile⟩)) (some (.ok (⟨compile⟩, ⟨compile⟩)))
        (some [("a", .jstr "x")])).verifyCalled = false ∧
      (verifyHandler (.ok (⟨compile⟩, ⟨compile⟩)) (some (.ok (⟨compile⟩, ⟨compile⟩)))
        (some [("proof", .jnum 3)])).status = 400 ∧
      (verifyHandler (.ok (⟨compile⟩, ⟨compile⟩)) (some (.ok (⟨compile⟩, ⟨compile⟩)))
        (some [("proof", .jnum 3)])).body = .errJson "Invalid request body" ∧
      (verifyHandler (.ok (⟨compile⟩, ⟨compile⟩)) (some (.ok (⟨compile⟩, ⟨compile⟩)))
        (some [("proof", .jnum 3)])).proveCalled = false ∧
      (verifyHandler (.ok (⟨compile⟩, ⟨compile⟩)) (some (.ok (⟨compile⟩, ⟨compile⟩)))
        (some [("proof", .jnum 3)])).verifyCalled = false :=
  C8_bad_body_rejected_without_backend (⟨compile⟩, ⟨compile⟩)
    (some [("a", .jstr "x")]) (some [("proof", .jnum 3)])
    ⟨"cannot unmarshal into field of type int", rfl⟩
    ⟨"cannot unmarshal into field of type byte slice", rfl⟩

end Zkp
